import Mathlib

/-
Verification development for voice2action.py.

The Python source is shallowly embedded: Python strings become `List Char`,
pure helpers become Lean functions, the `exec`-based runner becomes a function
parameterised by the (arbitrary) behaviour of the executed script text, and
raised Python exceptions become the `Except.error` channel (an `Except.error`
escaping a modelled function corresponds to an uncaught exception propagating
out of the corresponding Python function).
-/

/-- Convert a Lean string literal to the character-list representation used
for embedded Python strings. -/
def chars (s : String) : List Char := s.toList

/-- The backtick character (U+0060), used by the fenced-code-block syntax. -/
def btick : Char := Char.ofNat 96

/-- ASCII lower-casing of one character, as performed by a case-insensitive
regex match on ASCII input. -/
def asciiLower (c : Char) : Char :=
  if 'A' ≤ c && c ≤ 'Z' then Char.ofNat (c.toNat + 32) else c

/-- Case-insensitive character comparison (ASCII). -/
def lcEq (a b : Char) : Bool := asciiLower a == asciiLower b

/-- The ASCII whitespace class matched by the regex class \s and stripped by
str.strip(): space, tab, newline, carriage return, vertical tab, form feed. -/
def isWS (c : Char) : Bool :=
  c == ' ' || c == Char.ofNat 9 || c == Char.ofNat 10 || c == Char.ofNat 13 ||
  c == Char.ofNat 11 || c == Char.ofNat 12

/-- Drop the maximal leading run of whitespace characters. -/
def dropWSrun : List Char → List Char
  | [] => []
  | c :: rest => if isWS c then dropWSrun rest else c :: rest

/-- Python str.strip(): remove leading and trailing whitespace. -/
def stripWS (s : List Char) : List Char :=
  (dropWSrun ((dropWSrun s).reverse)).reverse

/-- Case-sensitive: the first list is an exact leading segment of the second. -/
def startsWithL : List Char → List Char → Bool
  | [], _ => true
  | _ :: _, [] => false
  | p :: ps, c :: cs => p == c && startsWithL ps cs

/-- Case-insensitive (ASCII) leading-segment test. -/
def startsWithCI : List Char → List Char → Bool
  | [], _ => true
  | _ :: _, [] => false
  | p :: ps, c :: cs => lcEq p c && startsWithCI ps cs

/-- Python substring containment (the `in` operator on str): `pat` occurs as a
contiguous, case-sensitive substring of the second argument. -/
def containsSub (pat : List Char) : List Char → Bool
  | [] => startsWithL pat []
  | c :: rest => startsWithL pat (c :: rest) || containsSub pat rest

/-- ALLOWED_IMPORTS from voice2action.py line 136.  Defined by the source but
never consulted by any function of the program. -/
def ALLOWED_IMPORTS : List String := ["autopy", "keyboard", "time"]

/-- BLOCKED_PATTERNS from voice2action.py lines 139-145: the literal
substrings the validator scans for, in order. -/
def BLOCKED_PATTERNS : List (List Char) :=
  [chars "import os", chars "import subprocess", chars "open(",
   chars "eval(", chars "exec("]

/-- The scanning loop of is_code_safe (voice2action.py lines 146-149): try the
patterns in order, returning on the first one contained in the code. -/
def is_code_safe_loop (code : List Char) : List (List Char) → Bool × List Char
  | [] => (true, chars "Code is safe")
  | p :: ps =>
    if containsSub p code then (false, chars "Blocked pattern found: " ++ p)
    else is_code_safe_loop code ps

/-- is_code_safe from voice2action.py lines 138-149. -/
def is_code_safe (code : List Char) : Bool × List Char :=
  is_code_safe_loop code BLOCKED_PATTERNS

lemma is_code_safe_loop_eq (code : List Char) (ps : List (List Char)) :
    is_code_safe_loop code ps =
      match ps.find? (fun p => containsSub p code) with
      | some p => (false, chars "Blocked pattern found: " ++ p)
      | none => (true, chars "Code is safe") := by
  induction ps with
  | nil => rfl
  | cons p ps ih =>
    by_cases h : containsSub p code = true
    · simp [is_code_safe_loop, List.find?, h]
    · simp only [Bool.not_eq_true] at h
      simp [is_code_safe_loop, List.find?, h, ih]

/-- C4 counterexample: the validator does reject the body "open(", but the
reason message produced by the code is "Blocked pattern found: open(", not the
literal "blocked pattern: open(" stated by the claim. -/
theorem C4_counterexample :
    is_code_safe (chars "open(") =
      (false, chars "Blocked pattern found: open(") ∧
    chars "Blocked pattern found: open(" ≠ chars "blocked pattern: open(" := by
  constructor
  · rfl
  · decide

/-- C4 (amended): is_code_safe returns its rejecting value exactly when some
configured pattern occurs as a case-sensitive literal substring of the body,
the first matching pattern in denylist order determines the reason message
"Blocked pattern found: <pattern>", a body containing no pattern is accepted,
and the match is case-sensitive (a body "EVAL(" is accepted). -/
theorem C4_amended (code : List Char) :
    (is_code_safe code =
      match BLOCKED_PATTERNS.find? (fun p => containsSub p code) with
      | some p => (false, chars "Blocked pattern found: " ++ p)
      | none => (true, chars "Code is safe")) ∧
    ((is_code_safe code).1 = false ↔
      ∃ p ∈ BLOCKED_PATTERNS, containsSub p code = true) ∧
    (is_code_safe (chars "EVAL(")).1 = true := by
  refine ⟨is_code_safe_loop_eq code BLOCKED_PATTERNS, ?_, by decide⟩
  have e := is_code_safe_loop_eq code BLOCKED_PATTERNS
  rw [show is_code_safe code = is_code_safe_loop code BLOCKED_PATTERNS from rfl, e]
  cases hf : BLOCKED_PATTERNS.find? (fun p => containsSub p code) with
  | none =>
    simp only [List.find?_eq_none] at hf
    simp only [Bool.not_eq_true] at hf
    constructor
    · intro h; cases h
    · rintro ⟨p, hp, hc⟩
      rw [hf p hp] at hc
      cases hc
  | some p =>
    have hmem : p ∈ BLOCKED_PATTERNS := List.mem_of_find?_eq_some hf
    have hc : containsSub p code = true := by
      have h2 := (List.find?_eq_some.mp hf).1
      simpa using h2
    exact ⟨fun _ => ⟨p, hmem, hc⟩, fun _ => rfl⟩

/-- C3 counterexample: the claim says a raw import of a module outside
{autopy, keyboard, time} (for example sys or socket) is rejected, but
is_code_safe accepts both "import sys" and "import socket". -/
theorem C3_counterexample :
    (is_code_safe (chars "import sys")).1 = true ∧
    (is_code_safe (chars "import socket")).1 = true := by
  decide

/-- C3 (amended): the denylist covers raw imports only of the two modules os
and subprocess (plus the file-I/O, process-spawning and dynamic-evaluation
literals); any body containing "import os" or "import subprocess" is rejected,
while raw imports of other modules outside the allowlist, such as
"import sys" or "import socket", are accepted. -/
theorem C3_amended :
    (∀ code : List Char, containsSub (chars "import os") code = true →
      (is_code_safe code).1 = false) ∧
    (∀ code : List Char, containsSub (chars "import subprocess") code = true →
      (is_code_safe code).1 = false) ∧
    (is_code_safe (chars "import sys")).1 = true ∧
    (is_code_safe (chars "import socket")).1 = true := by
  refine ⟨?_, ?_, by decide, by decide⟩
  · intro code h
    simp [is_code_safe, BLOCKED_PATTERNS, is_code_safe_loop, h]
  · intro code h
    by_cases h1 : containsSub (chars "import os") code = true
    · simp [is_code_safe, BLOCKED_PATTERNS, is_code_safe_loop, h1]
    · simp only [Bool.not_eq_true] at h1
      simp [is_code_safe, BLOCKED_PATTERNS, is_code_safe_loop, h1, h]

/-- Witness for C3_amended at concrete inputs. -/
theorem C3_witness :
    (is_code_safe (chars "import os")).1 = false ∧
    (is_code_safe (chars "x = 1\nimport subprocess\n")).1 = false :=
  ⟨C3_amended.1 (chars "import os") (by decide),
   C3_amended.2.1 (chars "x = 1\nimport subprocess\n") (by decide)⟩

/-- Python int() applied to an exact (rational) value: truncation toward
zero, as performed by the two int(...) casts in bbox_to_center. -/
def pytrunc (q : ℚ) : ℤ := if 0 ≤ q then ⌊q⌋ else ⌈q⌉

/-- bbox_to_center from the HELPERS block (voice2action.py lines 151-159):
unpack the bbox as (x1, y1, x2, y2) and truncate the scaled center,
cx = int(((x1 + x2) / 2) * SCREEN_WIDTH),
cy = int(((y1 + y2) / 2) * SCREEN_HEIGHT).
The screen size pair obtained from autopy.screen.size() is the (W, H)
parameter. -/
def bbox_to_center (b : ℚ × ℚ × ℚ × ℚ) (W H : ℕ) : ℤ × ℤ :=
  (pytrunc (((b.1 + b.2.2.1) / 2) * (W : ℚ)),
   pytrunc (((b.2.1 + b.2.2.2) / 2) * (H : ℚ)))

/-- A bbox (x1, y1, x2, y2) is in range when all coordinates lie in [0, 1]
with x1 ≤ x2 and y1 ≤ y2. -/
def validBbox (b : ℚ × ℚ × ℚ × ℚ) : Prop :=
  0 ≤ b.1 ∧ b.1 ≤ b.2.2.1 ∧ b.2.2.1 ≤ 1 ∧
  0 ≤ b.2.1 ∧ b.2.1 ≤ b.2.2.2 ∧ b.2.2.2 ≤ 1

instance validBboxDec (b : ℚ × ℚ × ℚ × ℚ) : Decidable (validBbox b) := by
  unfold validBbox
  infer_instance

/-- Spec-side model of CoordinateMapper.toPixels, following the words of the
spec (sections 4.1 and 8): reject any out-of-range bbox with InvalidBbox,
otherwise return the rounded scaled center.  This definition exists only to
be compared with bbox_to_center, the function the source actually runs. -/
def toPixelsSpec (b : ℚ × ℚ × ℚ × ℚ) (W H : ℕ) : Except (List Char) (ℤ × ℤ) :=
  if validBbox b then
    Except.ok (round (((b.1 + b.2.2.1) / 2) * (W : ℚ)),
               round (((b.2.1 + b.2.2.2) / 2) * (H : ℚ)))
  else Except.error (chars "InvalidBbox")

/-- C6 counterexample: for the in-range bbox (0, 0, 1, 1) on a 3 by 3 screen
the code returns the truncated center (1, 1), while the claimed formula
(round((x1+x2)/2*W), round((y1+y2)/2*H)) gives (2, 2). -/
theorem C6_counterexample :
    bbox_to_center ((0 : ℚ), (0 : ℚ), (1 : ℚ), (1 : ℚ)) 3 3 = (1, 1) ∧
    (round ((((0 : ℚ) + 1) / 2) * (3 : ℚ)),
     round ((((0 : ℚ) + 1) / 2) * (3 : ℚ))) = ((2 : ℤ), (2 : ℤ)) ∧
    ((1 : ℤ), (1 : ℤ)) ≠ ((2 : ℤ), (2 : ℤ)) := by
  refine ⟨?_, ?_, by decide⟩
  · simp only [bbox_to_center, pytrunc, Prod.mk.injEq]
    norm_num
  · simp only [Prod.mk.injEq]
    norm_num [round_eq]

/-- C6 (amended): for every in-range bbox and screen size, bbox_to_center
returns the floor (truncation, via the Python int() cast) of the scaled
center, not its rounding. -/
theorem C6_amended (x1 y1 x2 y2 : ℚ) (W H : ℕ)
    (hx0 : 0 ≤ x1) (hx12 : x1 ≤ x2) (_hx1 : x2 ≤ 1)
    (hy0 : 0 ≤ y1) (hy12 : y1 ≤ y2) (_hy1 : y2 ≤ 1) :
    bbox_to_center (x1, y1, x2, y2) W H =
      (⌊((x1 + x2) / 2) * (W : ℚ)⌋, ⌊((y1 + y2) / 2) * (H : ℚ)⌋) := by
  have hx : (0 : ℚ) ≤ ((x1 + x2) / 2) * (W : ℚ) :=
    mul_nonneg (by linarith) (Nat.cast_nonneg W)
  have hy : (0 : ℚ) ≤ ((y1 + y2) / 2) * (H : ℚ) :=
    mul_nonneg (by linarith) (Nat.cast_nonneg H)
  simp only [bbox_to_center, pytrunc, if_pos hx, if_pos hy]

/-- Witness for C6_amended at the bbox (0, 0, 1, 1) on a 4 by 4 screen. -/
theorem C6_witness :
    bbox_to_center ((0 : ℚ), (0 : ℚ), (1 : ℚ), (1 : ℚ)) 4 4 =
      (⌊((((0 : ℚ) + 1) / 2) * (4 : ℚ))⌋, ⌊((((0 : ℚ) + 1) / 2) * (4 : ℚ))⌋) :=
  C6_amended 0 0 1 1 4 4 (by norm_num) (by norm_num) (by norm_num)
    (by norm_num) (by norm_num) (by norm_num)

/-- C7 counterexample: on the out-of-range bbox (2, 2, 2, 2) the code does
not fail; it returns the pixel pair (20, 20) on a 10 by 10 screen, whereas
the spec-side mapper rejects that bbox with InvalidBbox. -/
theorem C7_counterexample :
    bbox_to_center ((2 : ℚ), (2 : ℚ), (2 : ℚ), (2 : ℚ)) 10 10 = (20, 20) ∧
    toPixelsSpec ((2 : ℚ), (2 : ℚ), (2 : ℚ), (2 : ℚ)) 10 10 =
      Except.error (chars "InvalidBbox") := by
  constructor
  · simp only [bbox_to_center, pytrunc, Prod.mk.injEq]
    norm_num
  · unfold toPixelsSpec
    rw [if_neg]
    intro h
    have h3 := h.2.2.1
    norm_num at h3

/-- C7 (amended): bbox_to_center performs no range check at all: on every
out-of-range bbox it still returns the truncated-center pixel pair and never
fails, while the spec-side mapper fails with InvalidBbox there. -/
theorem C7_amended (b : ℚ × ℚ × ℚ × ℚ) (W H : ℕ) (h : ¬ validBbox b) :
    toPixelsSpec b W H = Except.error (chars "InvalidBbox") ∧
    bbox_to_center b W H =
      (pytrunc (((b.1 + b.2.2.1) / 2) * (W : ℚ)),
       pytrunc (((b.2.1 + b.2.2.2) / 2) * (H : ℚ))) := by
  constructor
  · unfold toPixelsSpec
    rw [if_neg h]
  · rfl

/-- Witness for C7_amended at the out-of-range bbox (3, 0, 4, 0). -/
theorem C7_witness :
    toPixelsSpec ((3 : ℚ), (0 : ℚ), (4 : ℚ), (0 : ℚ)) 5 5 =
      Except.error (chars "InvalidBbox") ∧
    bbox_to_center ((3 : ℚ), (0 : ℚ), (4 : ℚ), (0 : ℚ)) 5 5 =
      (pytrunc ((((3 : ℚ) + 4) / 2) * (5 : ℚ)),
       pytrunc ((((0 : ℚ) + 0) / 2) * (5 : ℚ))) :=
  C7_amended ((3 : ℚ), (0 : ℚ), (4 : ℚ), (0 : ℚ)) 5 5
    (by intro h; have h3 := h.2.2.1; norm_num at h3)

/-- The nine-character opening pattern of the regex used at voice2action.py
line 124 (backtick, backtick, backtick, p, y, t, h, o, n); the letters are
matched case-insensitively because the search uses re.IGNORECASE. -/
def fenceOpenPat : List Char := [btick, btick, btick, 'p', 'y', 't', 'h', 'o', 'n']

/-- The closing fence: three backticks. -/
def closeFence : List Char := [btick, btick, btick]

/-- The lazy group (.*?) of the regex: consume characters (including
newlines, because of re.DOTALL) up to the first occurrence of the closing
fence; none when no closing fence follows. -/
def untilClose : List Char → Option (List Char)
  | [] => none
  | c :: rest =>
    if startsWithL closeFence (c :: rest) then some []
    else (untilClose rest).map (fun t => c :: t)

/-- The leftmost-match search of re.search over the pattern
three-backticks, python, \s*, lazy group, three-backticks: at each start
position try the opening pattern (case-insensitively), then the greedy
whitespace run, then the lazy group up to the first closing fence; on
failure resume at the next start position.  Returns the group. -/
def findPyFence : List Char → Option (List Char)
  | [] => none
  | c :: rest =>
    if startsWithCI fenceOpenPat (c :: rest) then
      match untilClose (dropWSrun (List.drop 8 rest)) with
      | some body => some body
      | none => findPyFence rest
    else findPyFence rest

/-- request_code_from_gemini (voice2action.py lines 116-131), modelled on the
raw response text resp.text or "": extract the first python-tagged fenced
region and strip it, falling back to the whole stripped response; raise
(Except.error) when the resulting body is empty.  The network call itself is
an external collaborator and is not part of the model. -/
def request_code_from_gemini (raw : List Char) : Except (List Char) (List Char) :=
  let code :=
    match findPyFence raw with
    | some body => stripWS body
    | none => stripWS raw
  if code = [] then Except.error (chars "Model did not return Python code.")
  else Except.ok code

lemma findPyFence_cons_some (c : Char) (rest body : List Char)
    (hopen : startsWithCI fenceOpenPat (c :: rest) = true)
    (hbody : untilClose (dropWSrun (List.drop 8 rest)) = some body) :
    findPyFence (c :: rest) = some body := by
  simp [findPyFence, hopen, hbody]

/-- C5 counterexample: for the raw response consisting of an empty
python-tagged fenced block, extraction fails even though a fenced region is
present and the trimmed fallback body (the whole response) is nonempty; so
the failure condition claimed (no fenced region and empty trimmed response)
does not characterise the failures of the code. -/
theorem C5_counterexample :
    request_code_from_gemini (fenceOpenPat ++ [Char.ofNat 10] ++ closeFence) =
      Except.error (chars "Model did not return Python code.") ∧
    findPyFence (fenceOpenPat ++ [Char.ofNat 10] ++ closeFence) = some [] ∧
    stripWS (fenceOpenPat ++ [Char.ofNat 10] ++ closeFence) ≠ [] := by
  refine ⟨?_, ?_, by decide⟩
  · rfl
  · decide

/-- C5 (amended): extraction returns the trimmed body of the first
python-tagged fenced region when one is present and that trimmed body is
nonempty, returns the whole trimmed response when no fenced region is
present and that is nonempty, and fails exactly when the selected trimmed
body (the fenced body when a fence is present, the whole response
otherwise) is empty — so a present-but-empty fenced block also fails, even
when the surrounding response text is nonempty. -/
theorem C5_amended (raw : List Char) :
    (∀ body, findPyFence raw = some body → stripWS body ≠ [] →
      request_code_from_gemini raw = Except.ok (stripWS body)) ∧
    (findPyFence raw = none → stripWS raw ≠ [] →
      request_code_from_gemini raw = Except.ok (stripWS raw)) ∧
    (request_code_from_gemini raw =
        Except.error (chars "Model did not return Python code.") ↔
      stripWS ((findPyFence raw).getD raw) = []) := by
  refine ⟨?_, ?_, ?_⟩
  · intro body hf hne
    simp [request_code_from_gemini, hf, hne]
  · intro hf hne
    simp [request_code_from_gemini, hf, hne]
  · cases hf : findPyFence raw with
    | none =>
      by_cases he : stripWS raw = []
      · simp [request_code_from_gemini, hf, he]
      · simp [request_code_from_gemini, hf, he]
    | some body =>
      by_cases he : stripWS body = []
      · simp [request_code_from_gemini, hf, he]
      · simp [request_code_from_gemini, hf, he]

/-- Witness for C5_amended: a response with no fenced region is returned
whole (trimmed), and a fenced response yields the trimmed fenced body. -/
theorem C5_witness :
    request_code_from_gemini (chars "hello") = Except.ok (stripWS (chars "hello")) ∧
    request_code_from_gemini (fenceOpenPat ++ chars " x" ++ closeFence) =
      Except.ok (stripWS (chars " x")) := by
  constructor
  · exact (C5_amended (chars "hello")).2.1 (by decide) (by decide)
  · exact (C5_amended (fenceOpenPat ++ chars " x" ++ closeFence)).1
      (chars "x") (by decide) (by decide)

/-- The opening fence with upper-case tag PYTHON. -/
def pyOpenUpper : List Char := [btick, btick, btick, 'P', 'Y', 'T', 'H', 'O', 'N']

/-- The opening fence with title-case tag Python. -/
def pyOpenTitle : List Char := [btick, btick, btick, 'P', 'y', 't', 'h', 'o', 'n']

/-- C10: the fenced-block tag is matched case-insensitively — for any suffix
whose whitespace-stripped remainder yields a closed group, the blocks tagged
PYTHON, Python and python all extract that same group — and only the first
fenced region is used: whatever text (including further python-tagged
blocks) follows the first closing fence, extraction returns the first
block's trimmed body. -/
theorem C10_first_fence_ci :
    (∀ s body : List Char, untilClose (dropWSrun s) = some body →
      findPyFence (pyOpenUpper ++ s) = some body ∧
      findPyFence (pyOpenTitle ++ s) = some body ∧
      findPyFence (fenceOpenPat ++ s) = some body) ∧
    (∀ t : List Char,
      request_code_from_gemini
          (fenceOpenPat ++ chars " first" ++ closeFence ++ t) =
        Except.ok (chars "first")) := by
  constructor
  · intro s body h
    refine ⟨?_, ?_, ?_⟩
    · apply findPyFence_cons_some
      · rfl
      · simpa using h
    · apply findPyFence_cons_some
      · rfl
      · simpa using h
    · apply findPyFence_cons_some
      · rfl
      · simpa using h
  · intro t
    have hfind :
        findPyFence (fenceOpenPat ++ chars " first" ++ closeFence ++ t) =
          some (chars "first") := by
      apply findPyFence_cons_some
      · rfl
      · show untilClose (dropWSrun (chars " first" ++ closeFence ++ t)) = _
        simp only [chars, String.toList]
        rw [show dropWSrun
              (String.data " first" ++ closeFence ++ t) =
              String.data "first" ++ closeFence ++ t from by
            simp [dropWSrun, isWS, String.data]]
        rw [show String.data "first" ++ closeFence ++ t =
              'f' :: 'i' :: 'r' :: 's' :: 't' :: (closeFence ++ t) from by
            simp [String.data]]
        rw [untilClose]
        rw [if_neg (by simp [startsWithL, closeFence, btick])]
        rw [untilClose]
        rw [if_neg (by simp [startsWithL, closeFence, btick])]
        rw [untilClose]
        rw [if_neg (by simp [startsWithL, closeFence, btick])]
        rw [untilClose]
        rw [if_neg (by simp [startsWithL, closeFence, btick])]
        rw [untilClose]
        rw [if_neg (by simp [startsWithL, closeFence, btick])]
        rw [show closeFence ++ t = btick :: btick :: btick :: t from by
            simp [closeFence]]
        rw [untilClose]
        rw [if_pos (by simp [startsWithL, closeFence])]
        rfl
    simp only [request_code_from_gemini]
    rw [hfind]
    rfl

/-- Witness for C10_first_fence_ci at concrete inputs: an upper-case tag
extracts the same body as a lower-case one, and a second python block after
the first is ignored. -/
theorem C10_witness :
    findPyFence (pyOpenUpper ++ (Char.ofNat 10 :: chars "x" ++ closeFence)) =
      some (chars "x") ∧
    request_code_from_gemini
        (fenceOpenPat ++ chars " first" ++ closeFence ++
          (fenceOpenPat ++ chars " second" ++ closeFence)) =
      Except.ok (chars "first") :=
  ⟨(C10_first_fence_ci.1 (Char.ofNat 10 :: chars "x" ++ closeFence)
      (chars "x") (by decide)).1,
   C10_first_fence_ci.2 (fenceOpenPat ++ chars " second" ++ closeFence)⟩

/-- One entry of the hard-coded UI-element catalog (voice2action.py
lines 77-84). -/
structure UIElement where
  id : Nat
  ty : String
  bbox : ℚ × ℚ × ℚ × ℚ
  interactivity : Bool
  content : String
deriving DecidableEq

/-- UI_ELEMENTS from voice2action.py lines 77-84: the six hard-coded
interactive regions, in source order. -/
def UI_ELEMENTS : List UIElement :=
  [⟨20, "icon", (0.2415, 0.3639, 0.4785, 0.4234), true, "Type your name"⟩,
   ⟨18, "icon", (0.5120, 0.3666, 0.5751, 0.4196), true, "Email"⟩,
   ⟨19, "icon", (0.5808, 0.3667, 0.6476, 0.4194), true, "Phone"⟩,
   ⟨17, "icon", (0.2421, 0.5527, 0.4795, 0.6748), true, "Type your message here.."⟩,
   ⟨16, "icon", (0.5104, 0.5523, 0.7490, 0.6773), true, "Share your feedback."⟩,
   ⟨21, "icon", (0.2447, 0.7994, 0.3012, 0.8506), true, "Submit"⟩]

/-- The part of the executor state the claims observe: the current contents
of the catalog object bound as UI_ELEMENTS in the execution scope.  The
scope also binds the autopy, keyboard and time module handles; those are
opaque external collaborators and carry no modelled state. -/
structure PyEnv where
  uiElements : List UIElement
deriving DecidableEq

/-- The initial state: the catalog as constructed at module load. -/
def env0 : PyEnv := ⟨UI_ELEMENTS⟩

/-- Outcome of executing a script text: either it runs to completion, or it
raises with a message; both leave the catalog object in some state. -/
inductive ExecOutcome where
  | normal (env : PyEnv)
  | raised (msg : List Char) (env : PyEnv)
deriving DecidableEq

/-- The state left behind by an execution outcome. -/
def outcomeEnv : ExecOutcome → PyEnv
  | ExecOutcome.normal e => e
  | ExecOutcome.raised _ e => e

/-- HELPERS from voice2action.py lines 151-159: the helper source text the
runner prepends to every generated script. -/
def HELPERS : List Char := chars "\n# --- helpers injected by the runner ---\nSCREEN_WIDTH, SCREEN_HEIGHT = autopy.screen.size()\ndef bbox_to_center(b):\n    x1, y1, x2, y2 = b\n    cx = int(((x1 + x2) / 2) * SCREEN_WIDTH)\n    cy = int(((y1 + y2) / 2) * SCREEN_HEIGHT)\n    return cx, cy\n"

/-- full_code from voice2action.py line 173: helpers, a blank line, then the
generated code. -/
def full_code (code : List Char) : List Char := HELPERS ++ chars "\n\n" ++ code

/-- run_generated_code (voice2action.py lines 161-175).  The behaviour of
exec on the (arbitrary Python) script text is not computable from the text
inside this embedding, so it is a parameter `sem`: the state transformation
and outcome the executed text produces.  The function refuses unsafe code by
raising before exec (the raise is the Except.error on the first component;
the state is returned unchanged since nothing ran), and otherwise returns
whatever exec does — note there is no try/except around exec, so a raised
outcome is returned on the error channel, i.e. it propagates to the caller
uncaught. -/
def run_generated_code (sem : List Char → PyEnv → ExecOutcome)
    (code : List Char) (env : PyEnv) : Except (List Char) Unit × PyEnv :=
  let v := is_code_safe code
  if v.1 = false then
    (Except.error (chars "Refusing to execute untrusted code: " ++ v.2), env)
  else
    match sem (full_code code) env with
    | ExecOutcome.normal e => (Except.ok (), e)
    | ExecOutcome.raised m e => (Except.error m, e)

/-- The keys of the globals dict g built by run_generated_code
(voice2action.py lines 166-171). -/
def scopeNames : List String := ["autopy", "keyboard", "time", "UI_ELEMENTS"]

/-- The names additionally defined at the top of the executed text by the
prepended HELPERS block. -/
def helperNames : List String := ["SCREEN_WIDTH", "SCREEN_HEIGHT", "bbox_to_center"]

/-- Modelled from the documented semantics of the Python exec builtin: when
the globals mapping passed to exec has no key "__builtins__", the
interpreter inserts a reference to the builtins module under that key before
the code runs.  run_generated_code passes a dict without that key, so the
executed script sees these keys in its global scope. -/
def execEffectiveNames (g : List String) : List String :=
  if "__builtins__" ∈ g then g else "__builtins__" :: g

/-- A selection of bindings provided by the Python builtins module: generic
module loading, file I/O and dynamic evaluation. -/
def builtinsModuleNames : List String :=
  ["__import__", "open", "eval", "exec", "compile", "getattr"]

/-- Name resolution inside the executed script, per Python semantics: a name
resolves if it is a key of the effective globals, a helper defined by the
prepended HELPERS text, or — because the "__builtins__" key is present — a
member of the builtins module. -/
def reachableInScope (n : String) : Bool :=
  (execEffectiveNames scopeNames).contains n || helperNames.contains n ||
  ((execEffectiveNames scopeNames).contains "__builtins__" &&
    builtinsModuleNames.contains n)

/-- C1 (code bug): the execution scope does not contain only the approved
bindings.  The globals dict is built without a "__builtins__" key, so exec
inserts the full builtins module into it, and the validated script
"x = __import__" (which passes the denylist) can resolve __import__ — and
likewise open, eval and exec — from the execution scope.  The containment
the claim (and the source comment "Minimal sandboxing") intends is absent:
the dict would need an explicit "__builtins__" entry to suppress this. -/
theorem C1_builtins_leak :
    (is_code_safe (chars "x = __import__")).1 = true ∧
    execEffectiveNames scopeNames = "__builtins__" :: scopeNames ∧
    reachableInScope "__import__" = true ∧
    reachableInScope "open" = true ∧
    reachableInScope "eval" = true ∧
    reachableInScope "exec" = true := by
  refine ⟨by decide, ?_, ?_, ?_, ?_, ?_⟩ <;> decide

/-- C8: whenever the validator does not accept the script, run_generated_code
returns the refusal error built from the validator message, the state is
returned unchanged (no side effects), and the result does not depend on the
script execution behaviour at all (the script body is never run, so no
device-control primitive is invoked). -/
theorem C8_refusal (sem : List Char → PyEnv → ExecOutcome)
    (code : List Char) (env : PyEnv)
    (h : (is_code_safe code).1 = false) :
    run_generated_code sem code env =
      (Except.error (chars "Refusing to execute untrusted code: " ++
        (is_code_safe code).2), env) := by
  simp [run_generated_code, h]

/-- Witness for C8_refusal: the rejected body "eval(x)" is refused with the
refusal message and an unchanged state, for an execution behaviour that
would otherwise clear the catalog. -/
theorem C8_witness :
    run_generated_code (fun _ _ => ExecOutcome.normal ⟨[]⟩)
        (chars "eval(x)") env0 =
      (Except.error (chars "Refusing to execute untrusted code: " ++
        (is_code_safe (chars "eval(x)")).2), env0) :=
  C8_refusal (fun _ _ => ExecOutcome.normal ⟨[]⟩) (chars "eval(x)") env0
    (by decide)

/-- C2 counterexample: a validated script whose execution raises (behaviour
boomSem, raising the message boom) makes run_generated_code return the raise
on the error channel — the exception propagates out of the executor uncaught
(and main has no handler either), instead of being caught and reported as a
Failed result. -/
theorem C2_counterexample :
    (is_code_safe (chars "time.sleep(1)")).1 = true ∧
    run_generated_code (fun _ env => ExecOutcome.raised (chars "boom") env)
        (chars "time.sleep(1)") env0 =
      (Except.error (chars "boom"), env0) := by
  exact ⟨by decide, rfl⟩

/-- C2 (amended): a condition raised while executing a validated script is
not caught by run_generated_code: the raise passes through unchanged on the
error channel (and, since main installs no handler around the call either,
it terminates the host process); no Failed-style result value is produced.
Only the pre-execution refusal produces an error of the executor itself. -/
theorem C2_propagation (sem : List Char → PyEnv → ExecOutcome)
    (code : List Char) (env : PyEnv) (m : List Char) (e : PyEnv)
    (hsafe : (is_code_safe code).1 = true)
    (hraise : sem (full_code code) env = ExecOutcome.raised m e) :
    run_generated_code sem code env = (Except.error m, e) := by
  simp [run_generated_code, hsafe, hraise]

/-- Witness for C2_propagation at a concrete raising behaviour. -/
theorem C2_witness :
    run_generated_code (fun _ env => ExecOutcome.raised (chars "oops") env)
        (chars "keyboard.write(msg)") env0 =
      (Except.error (chars "oops"), env0) :=
  C2_propagation (fun _ env => ExecOutcome.raised (chars "oops") env)
    (chars "keyboard.write(msg)") env0 (chars "oops") env0 (by decide) rfl

/-- C9 counterexample: the script "UI_ELEMENTS.clear()" passes validation,
and under its execution behaviour (the Python list.clear() empties the very
object the scope shares with the module, modelled by the behaviour that
returns the emptied catalog) run_generated_code completes normally with the
catalog mutated: the generated script can mutate the catalog through its
injected binding. -/
theorem C9_counterexample :
    (is_code_safe (chars "UI_ELEMENTS.clear()")).1 = true ∧
    run_generated_code (fun _ _ => ExecOutcome.normal ⟨[]⟩)
        (chars "UI_ELEMENTS.clear()") env0 =
      (Except.ok (), (⟨[]⟩ : PyEnv)) ∧
    env0.uiElements ≠ ([] : List UIElement) := by
  refine ⟨by decide, rfl, ?_⟩
  simp [env0, UI_ELEMENTS]

/-- C9 (amended): run_generated_code itself never alters the catalog: for a
validated script the catalog after execution is exactly the one the script
execution behaviour produced, and on refusal the catalog is returned
unchanged; but nothing read-protects the shared catalog object, so a
validated script is free to mutate it. -/
theorem C9_amended (sem : List Char → PyEnv → ExecOutcome)
    (code : List Char) (env : PyEnv) :
    ((is_code_safe code).1 = true →
      (run_generated_code sem code env).2 = outcomeEnv (sem (full_code code) env)) ∧
    ((is_code_safe code).1 = false →
      (run_generated_code sem code env).2 = env) := by
  constructor
  · intro h
    simp only [run_generated_code, h]
    cases sem (full_code code) env <;> simp [outcomeEnv]
  · intro h
    simp [run_generated_code, h]

/-- Witness for C9_amended: a validated script whose behaviour leaves the
catalog alone yields an unchanged catalog, and a rejected script also leaves
it unchanged. -/
theorem C9_witness :
    (run_generated_code (fun _ env => ExecOutcome.normal env)
        (chars "time.sleep(1)") env0).2 =
      outcomeEnv ((fun _ env => ExecOutcome.normal env)
        (full_code (chars "time.sleep(1)")) env0) ∧
    (run_generated_code (fun _ env => ExecOutcome.normal env)
        (chars "import os") env0).2 = env0 :=
  ⟨(C9_amended (fun _ env => ExecOutcome.normal env)
      (chars "time.sleep(1)") env0).1 (by decide),
   (C9_amended (fun _ env => ExecOutcome.normal env)
      (chars "import os") env0).2 (by decide)⟩
